import Mathlib

/-!
Verification of the Orca-Plugin instruction-builder components.

The repository is a set of React form components; each pairs a yup validation
schema with a `getInstruction` function that assembles and serializes a Solana
transaction instruction for a governance proposal.  This file shallowly embeds,
per component, the validation tests written in the source and the control flow
of `getInstruction` (validation outcome, dependency checks, try/catch structure
and the returned `UiInstruction` object), plus the manual instruction assembly
of `CreateSplashPool.tsx` and the buffer parser `parsePublicKeyFromBuffer`.

External code (yup combination logic, the Orca SDKs, `@solana/web3.js`,
`@utils/formValidation`, `@solana/spl-governance` serialization) is not in
`src/`; where a claim depends on it, it is modelled from the specification and
marked `Modelled from the spec:` in the doc comment.  SDK calls that perform
network requests are abstracted as `Except String` inputs: `.error e` models the
call throwing exception `e`, `.ok v` models it returning `v`.
-/

namespace OrcaPlugin

/-- Account entry of a Solana transaction instruction, as built by
`new TransactionInstruction` in `CreateSplashPool.tsx`: a public key (kept as
its base58 string) with signer/writable flags. -/
structure AccountMeta where
  pubkey : String
  isSigner : Bool
  isWritable : Bool
deriving DecidableEq

/-- Transaction instruction: program id, ordered account list, opaque data
bytes. -/
structure Ix where
  programId : String
  keys : List AccountMeta
  data : List Nat
deriving DecidableEq

/-- Result object of every component's `getInstruction`
(`UiInstruction` from `@utils/uiTypes/proposalCreationTypes`).  Optional
fields that a component's return object literal omits are `none`. -/
structure UiInstruction where
  serializedInstruction : String
  isValid : Bool
  governance : Option String
  prerequisiteInstructions : Option (List Ix) := none
  prerequisiteInstructionsSigners : Option (List String) := none
  additionalSerializedInstructions : Option (List String) := none
  chunkBy : Option Nat := none
  customHoldUpTime : Option Int := none
deriving DecidableEq

/-- Form errors set through `setFormErrors`, as an association list from field
name (or `_error` / `instruction` for form-level messages) to message. -/
abbrev FormErrors := List (String × String)

/-- Fuel-bounded byte-length computation: counts how many base-256 digits `n`
has, stopping after `fuel` digits. -/
def natByteLenAux : Nat → Nat → Nat
  | 0, _ => 0
  | fuel + 1, n => if n = 0 then 0 else natByteLenAux fuel (n / 256) + 1

/-- Number of bytes in the minimal big-endian encoding of a natural number
(zero takes zero bytes).  The fuel of 64 caps the result at 64 bytes: exact for
every value below `256 ^ 64`, and still at least 64 beyond, so the cap can
never make an over-long decoding pass a 32-byte check. -/
def natByteLen (n : Nat) : Nat := natByteLenAux 64 n

/-- Little-endian byte list of fixed width `w` for `n`, byte `i` being
`n / 256 ^ i % 256`; this is what `BN.toArray` with base `le` and length 16
produces for a value below `2 ^ (8 * w)`. -/
def natToLEBytes (w : Nat) (n : Nat) : List Nat :=
  (List.range w).map (fun i => n / 256 ^ i % 256)

/-- Value of a little-endian byte list. -/
def leBytesToNat (bytes : List Nat) : Nat :=
  bytes.foldr (fun b acc => b + 256 * acc) 0

/-- Bitcoin-style base58 alphabet used by Solana addresses. -/
def base58Alphabet : List Char :=
  "123456789ABCDEFGHJKLMNPQRSTUVWXYZabcdefghijkmnopqrstuvwxyz".toList

/-- Value of one base58 digit, `none` for characters outside the alphabet. -/
def base58DigitVal (c : Char) : Option Nat :=
  let i := base58Alphabet.indexOf c
  if i < 58 then some i else none

/-- Numeric value of a base58 string, `none` when any character is invalid. -/
def base58DecodeNat (s : String) : Option Nat :=
  s.toList.foldl
    (fun acc c => acc.bind fun n => (base58DigitVal c).map fun d => n * 58 + d)
    (some 0)

/-- Number of leading zero digits (character `1`) of a base58 string; each
contributes one leading zero byte to the decoding. -/
def countLeadingOnes : List Char → Nat
  | [] => 0
  | c :: rest => if c = Char.ofNat 49 then countLeadingOnes rest + 1 else 0

/-- Modelled from the spec: `validatePubkey` (`@utils/formValidation`) and the
`new PublicKey(value)` probes in the schemas accept a string iff it is a valid
base58 address, i.e. iff its base58 decoding is exactly 32 bytes (one zero byte
per leading `1` digit plus the minimal big-endian bytes of the value). -/
def isValidPubkeyStr (s : String) : Bool :=
  match base58DecodeNat s with
  | none => false
  | some n => countLeadingOnes s.toList + natByteLen n == 32

/-- Base64 alphabet. -/
def base64Alphabet : List Char :=
  "ABCDEFGHIJKLMNOPQRSTUVWXYZabcdefghijklmnopqrstuvwxyz0123456789+/".toList

/-- One base64 output character. -/
def base64Char (i : Nat) : Char := base64Alphabet.getD i (Char.ofNat 65)

/-- Standard base64 encoding of a byte list, with `=` padding. -/
def base64Encode : List Nat → String
  | [] => ""
  | [b1] =>
    String.mk [base64Char (b1 / 4), base64Char (b1 % 4 * 16),
      Char.ofNat 61, Char.ofNat 61]
  | [b1, b2] =>
    String.mk [base64Char (b1 / 4), base64Char (b1 % 4 * 16 + b2 / 16),
      base64Char (b2 % 16 * 4), Char.ofNat 61]
  | b1 :: b2 :: b3 :: rest =>
    String.mk [base64Char (b1 / 4), base64Char (b1 % 4 * 16 + b2 / 16),
      base64Char (b2 % 16 * 4 + b3 / 64), base64Char (b3 % 64)]
      ++ base64Encode rest

/-- The 32 bytes of a public key given as a base58 string: one zero byte per
leading `1` digit, then the big-endian bytes of the value, zero-padded on the
left to 32 bytes in total (defaults to all zeros on a malformed string, which
cannot occur for keys already validated). -/
def pubkeyBytes32 (s : String) : List Nat :=
  match base58DecodeNat s with
  | none => List.replicate 32 0
  | some n => (natToLEBytes 32 n).reverse

/-- Little-endian u32 bytes (borsh length prefix). -/
def u32LEBytes (n : Nat) : List Nat := natToLEBytes 4 n

/-- Modelled from the spec: `serializeInstructionToBase64` from
`@solana/spl-governance` base64-encodes the borsh encoding of the instruction:
the 32-byte program id, the length-prefixed account list (32-byte key plus the
two flags per account) and the length-prefixed data bytes. -/
def instructionBytes (ix : Ix) : List Nat :=
  pubkeyBytes32 ix.programId
    ++ u32LEBytes ix.keys.length
    ++ (ix.keys.flatMap fun k =>
          pubkeyBytes32 k.pubkey ++ [cond k.isSigner 1 0, cond k.isWritable 1 0])
    ++ u32LEBytes ix.data.length
    ++ ix.data

/-- Modelled from the spec: base64 serialization of an instruction. -/
def serializeInstructionToBase64 (ix : Ix) : String :=
  base64Encode (instructionBytes ix)

/-- Orca Whirlpool program id (`ORCA_WHIRLPOOL_PROGRAM_ID`). -/
def orcaWhirlpoolProgramId : String := "whirLbMiicVdio4qvUfM5KAg6Ct8VwpYzGff3uctyCc"

/-- Default whirlpools config hard-coded in `CreateSplashPool.tsx`. -/
def whirlpoolsConfigAddr : String := "FcrweFY1G9HJAHG5inkGB6pKg1HZ6x9UC2WioAfWrGkR"

/-- SPL token program id (`TOKEN_PROGRAM_ID`). -/
def tokenProgramId : String := "TokenkegQfeZyiNwAJbNbGKPFXCWuBvf9Ss623VQ5DA"

/-- System program id (`SystemProgram.programId`). -/
def systemProgramId : String := "11111111111111111111111111111111"

/-- Rent sysvar id (`SYSVAR_RENT_PUBKEY`). -/
def sysvarRentId : String := "SysvarRent111111111111111111111111111111111"

namespace CreateSplashPool

/-- Mint ordering of `CreateSplashPool.tsx` lines 96-105: the pair sorted by
comparing the base58 strings with the string less-than of the host language
(code-unit order, which agrees with the Lean order on these ASCII strings). -/
def orderMints (tokenMintA tokenMintB : String) : String × String :=
  if tokenMintA < tokenMintB then (tokenMintA, tokenMintB)
  else (tokenMintB, tokenMintA)

/-- Instruction data assembly of `CreateSplashPool.tsx` lines 150-165: a
19-byte buffer (`Buffer.alloc(1 + 1 + 1 + 16)`, zero-filled), discriminator 0
written at offset 0, the whirlpool PDA bump at offset 1, the tick spacing 8 at
offset 2, then a loop copying the 16 little-endian bytes of `sqrtPriceX64`
(`toArray('le', 16)`) to offsets 3 through 18. -/
def splashPoolInstructionData (whirlpoolBump sqrtPriceX64 : Nat) : List Nat :=
  let buf := List.replicate (1 + 1 + 1 + 16) 0
  let buf := buf.set 0 0
  let buf := buf.set 1 whirlpoolBump
  let buf := buf.set 2 8
  (List.range 16).foldl (fun b i => b.set (3 + i) (sqrtPriceX64 / 256 ^ i % 256)) buf

/-- Account list and data of the manually constructed initialize-pool
instruction (`CreateSplashPool.tsx` lines 168-184), as a function of the
ordered mints, funder, PDA outputs and generated vault keys. -/
def assembledIx (orderedMintA orderedMintB funder whirlpoolPdaKey : String)
    (whirlpoolBump : Nat) (vaultA vaultB feeTierPdaKey : String)
    (sqrtPriceX64 : Nat) : Ix :=
  { programId := orcaWhirlpoolProgramId
    keys :=
      [ { pubkey := whirlpoolsConfigAddr, isSigner := false, isWritable := false }
      , { pubkey := orderedMintA, isSigner := false, isWritable := false }
      , { pubkey := orderedMintB, isSigner := false, isWritable := false }
      , { pubkey := funder, isSigner := true, isWritable := true }
      , { pubkey := whirlpoolPdaKey, isSigner := false, isWritable := true }
      , { pubkey := vaultA, isSigner := true, isWritable := true }
      , { pubkey := vaultB, isSigner := true, isWritable := true }
      , { pubkey := feeTierPdaKey, isSigner := false, isWritable := false }
      , { pubkey := tokenProgramId, isSigner := false, isWritable := false }
      , { pubkey := systemProgramId, isSigner := false, isWritable := false }
      , { pubkey := sysvarRentId, isSigner := false, isWritable := false } ]
    data := splashPoolInstructionData whirlpoolBump sqrtPriceX64 }

/-- Full assembly from the raw form mints: order the mints, derive the
whirlpool PDA from the ordered pair (the SDK derivation is abstracted as the
function `pda`, applied exactly as in the source to the ordered mints), then
build the instruction.  The fee tier PDA and the freshly generated vault
keypairs do not depend on the mints. -/
def assembleFromForm (tokenAMint tokenBMint funder : String)
    (pda : String → String → String × Nat) (vaultA vaultB feeTierPdaKey : String)
    (sqrtPriceX64 : Nat) : Ix :=
  let p := orderMints tokenAMint tokenBMint
  let wp := pda p.1 p.2
  assembledIx p.1 p.2 funder wp.1 wp.2 vaultA vaultB feeTierPdaKey sqrtPriceX64

end CreateSplashPool

/-- Modelled from decimal.js (external dependency): a parsed `Decimal` keeps a
sign field `s`; the value is sign-magnitude, and `s` is positive for every
numeral without a leading minus, including the numeral `0`. -/
structure DecimalVal where
  signNonneg : Bool
  mag : ℚ
deriving DecidableEq

/-- Modelled from decimal.js: `isPositive` tests only the sign field
(`this.s > 0`), so it is true on a parsed `0`. -/
def DecimalVal.isPositive (d : DecimalVal) : Bool := d.signNonneg

/-- Parses a digit character. -/
def digitVal (c : Char) : Option Nat :=
  if c.toNat ≥ 48 ∧ c.toNat ≤ 57 then some (c.toNat - 48) else none

/-- Parses an unsigned digit string to a natural number. -/
def parseDigits (cs : List Char) : Option Nat :=
  cs.foldl (fun acc c => acc.bind fun n => (digitVal c).map fun d => n * 10 + d)
    (some 0)

/-- Splits a character list at every decimal point. -/
def splitOnDot : List Char → List (List Char)
  | [] => [[]]
  | c :: rest =>
    if c = Char.ofNat 46 then [] :: splitOnDot rest
    else
      match splitOnDot rest with
      | [] => [[c]]
      | grp :: grps => (c :: grp) :: grps

/-- Parses an unsigned decimal numeral (digits with at most one point) to a
rational. -/
def parseUnsignedDec (cs : List Char) : Option ℚ :=
  match splitOnDot cs with
  | [intPart] =>
    if intPart = [] then none
    else (parseDigits intPart).map fun n => (n : ℚ)
  | [intPart, fracPart] =>
    if intPart = [] ∧ fracPart = [] then none
    else
      (parseDigits intPart).bind fun n =>
        (parseDigits fracPart).map fun f =>
          (n : ℚ) + (f : ℚ) / (10 : ℚ) ^ fracPart.length
  | _ => none

/-- Modelled from decimal.js: parsing a plain decimal numeral string, keeping
the sign of the literal (exponents and other accepted forms are irrelevant to
the claims and omitted); `none` models the constructor throwing. -/
def parseDecimal (s : String) : Option DecimalVal :=
  match s.toList with
  | [] => none
  | c :: rest =>
    if c = Char.ofNat 45 then
      (parseUnsignedDec rest).map fun q => { signNonneg := false, mag := q }
    else
      (parseUnsignedDec (c :: rest)).map fun q => { signNonneg := true, mag := q }

/-- Tests whether the first list starts the second. -/
def listStartsWith : List Char → List Char → Bool
  | [], _ => true
  | _ :: _, [] => false
  | p :: ps, c :: cs => p == c && listStartsWith ps cs

/-- Tests whether the first list occurs inside the second. -/
def listOccursIn (pat : List Char) : List Char → Bool
  | [] => listStartsWith pat []
  | c :: cs => listStartsWith pat (c :: cs) || listOccursIn pat cs

/-- Substring test embedding the `errorMessage.includes(...)` checks of the
catch handlers. -/
def strContains (s pat : String) : Bool := listOccursIn pat.toList s.toList

/-- Helper `parsePublicKeyFromBuffer` of `AddLiquidity.tsx` lines 58-62 and
`RemoveLiquidity.tsx` lines 54-57: `null` when the offset is negative or the
buffer holds fewer than `offset + 32` bytes, otherwise the `PublicKey` over
`buffer.subarray(offset, offset + 32)`; the key is kept as its 32 raw bytes. -/
def parsePublicKeyFromBuffer (buffer : List Nat) (offset : Int) :
    Option (List Nat) :=
  if offset < 0 ∨ (buffer.length : Int) < offset + 32 then none
  else some ((buffer.drop offset.toNat).take 32)

namespace Schemas

/-- The `initialPrice` rule of `CreateSplashPool.tsx` line 76:
`yup.number().required().min(0.000001)`, accepting a number iff it is at least
`0.000001`. -/
def createSplashPoolInitialPrice (x : ℚ) : Bool := 1 / 1000000 ≤ x

/-- The `initialPrice` test of `CreatePool.tsx` lines 115-120: the string is
parsed with `new Decimal(val || '0')` and accepted iff `isPositive()`; a parse
failure is caught and rejected. -/
def createPoolInitialPrice (value : String) : Bool :=
  match parseDecimal (if value = "" then "0" else value) with
  | none => false
  | some d => d.isPositive

/-- The `lowerPrice` rule of `OpenPositionAddLiquidity.tsx` lines 81-84:
`yup.number().required().moreThan(0)`. -/
def openPositionLowerPrice (x : ℚ) : Bool := 0 < x

/-- The `tokenAmount` rule of `OpenPositionAddLiquidity.tsx` lines 92-95:
`yup.number().required().moreThan(0)`. -/
def openPositionTokenAmount (x : ℚ) : Bool := 0 < x

/-- The `tokenInputLogic` test of `RemoveLiquidity.tsx` lines 126-135 on the
parsed amounts: exactly one of the two must be positive. -/
def removeLiquidityTokenInputLogic (amountA amountB : ℚ) : Bool :=
  (decide (amountA > 0) && decide (amountB = 0)) ||
    (decide (amountA = 0) && decide (amountB > 0))

/-- The `tokenInputLogic` test of `AddLiquidity.tsx` lines 132-140 on the
parsed amounts: at least one of the two must be positive. -/
def addLiquidityTokenInputLogic (amountA amountB : ℚ) : Bool :=
  decide (amountA > 0) || decide (amountB > 0)

/-- The `tokenAmounts` test of `CreatePosition.tsx` lines 145-153 on the
parsed amounts: at least one of the two must be positive. -/
def createPositionTokenAmounts (amountA amountB : ℚ) : Bool :=
  decide (amountA > 0) || decide (amountB > 0)

/-- The `tokenAMint` (and symmetric `tokenBMint`) rule of
`CreateSplashPool.tsx` lines 64-75: `required` (rejecting the empty string)
plus the `is-valid-address` test `value ? validatePubkey(value) : false`. -/
def createSplashPoolTokenMint (s : String) : Bool :=
  if s.isEmpty then false else isValidPubkeyStr s

/-- The `poolAddress` rule of `CreatePosition.tsx` lines 117-127: `required`
plus the `is-pubkey` test `new PublicKey(value || '')` under try/catch. -/
def createPositionPoolAddress (s : String) : Bool :=
  if s.isEmpty then false else isValidPubkeyStr s

/-- The `positionMint` rule of `AddLiquidity.tsx` lines 118-123 (and its twin
in `RemoveLiquidity.tsx` and `CollectFees.tsx`): `required` plus the
`is-pubkey` test `new PublicKey(value || '')` under try/catch. -/
def addLiquidityPositionMint (s : String) : Bool :=
  if s.isEmpty then false else isValidPubkeyStr s

/-- The `tokenAMint` rule of `CreatePool.tsx` lines 100-105: `required` plus
the `is-pubkey` test `new PublicKey(value || '')` under try/catch. -/
def createPoolTokenAMint (s : String) : Bool :=
  if s.isEmpty then false else isValidPubkeyStr s

/-- The `tokenBMint` rule of `CreatePool.tsx` lines 106-114: `required`, the
`is-pubkey` test, and the additional `not-same-as-A` test
`this.parent.tokenAMint !== value`, so a key equal to the current
`tokenAMint` field is rejected even when it is valid base58. -/
def createPoolTokenBMint (tokenAMint s : String) : Bool :=
  if s.isEmpty then false
  else isValidPubkeyStr s && decide (tokenAMint ≠ s)

/-- The `whirlpoolAddress` rule of `OpenPositionAddLiquidity.tsx` lines
65-80: `required` plus the `is-valid-address` test, which rejects an absent
value and otherwise accepts iff `new PublicKey(value)` parses. -/
def openPositionWhirlpoolAddress (s : String) : Bool :=
  if s.isEmpty then false else isValidPubkeyStr s

/-- The `tokenAMint` (and symmetric `tokenBMint`) rule of `QueryPoolStats.tsx`
lines 57-58: `yup.string().required()` only, with no public-key test, so any
non-empty string is accepted. -/
def queryPoolStatsTokenMint (s : String) : Bool := !s.isEmpty

/-- The `positionMint` rule of `ClosePosition.tsx` line 48:
`yup.string().required()` only, with no public-key test, so any non-empty
string is accepted. -/
def closePositionPositionMint (s : String) : Bool := !s.isEmpty

end Schemas

/-!
Embeddings of each component's `getInstruction`.  Inputs common to all:
`isValid` is the boolean produced by the external validation helper
(`isFormValid` / `validateInstruction`) for the current form state, `depsOk`
is the conjunction of the component's dependency null-checks (selected
governed account, connected wallet, connection, transfer address where
required), `gov` the governance reference placed in the result.  SDK work
inside the `try` block is abstracted as an `Except String` value: `.error e`
models a thrown exception with message `e`.  The second component of a
returned pair is the form-error map set by the call after the initial reset.
-/

namespace ClosePosition

/-- Embedding of `ClosePosition.tsx` lines 52-76.  There is no try/catch:
`setWhirlpoolsConfig` and `closePositionInstructions` run bare, so an SDK
failure leaves `getInstruction` as a rejected promise (`Except.error`).  On
success the first returned instruction is serialized if there is one, and the
result carries only the three mandatory fields. -/
def getInstruction (isValid depsOk : Bool) (gov : Option String)
    (sdk : Except String (List Ix)) : Except String UiInstruction :=
  if isValid && depsOk then
    match sdk with
    | Except.error e => Except.error e
    | Except.ok instructions =>
      Except.ok
        { serializedInstruction :=
            match instructions with
            | [] => ""
            | ix :: _ => serializeInstructionToBase64 ix
          isValid := isValid
          governance := gov }
  else
    Except.ok { serializedInstruction := "", isValid := isValid, governance := gov }

end ClosePosition

namespace QueryPoolStats

/-- The no-op instruction built by `QueryPoolStats.tsx` lines 86-92: no keys,
system program id, empty data. -/
def noopIx : Ix := { programId := systemProgramId, keys := [], data := [] }

/-- Embedding of `QueryPoolStats.tsx` lines 63-103.  No try/catch: the pool
fetch runs bare and a failure propagates; on success a constant no-op
instruction is serialized.  Result carries only the three mandatory fields. -/
def getInstruction (isValid depsOk : Bool) (gov : Option String)
    (sdkFetch : Except String Unit) : Except String UiInstruction :=
  if isValid && depsOk then
    match sdkFetch with
    | Except.error e => Except.error e
    | Except.ok _ =>
      Except.ok
        { serializedInstruction := serializeInstructionToBase64 noopIx
          isValid := isValid
          governance := gov }
  else
    Except.ok { serializedInstruction := "", isValid := isValid, governance := gov }

end QueryPoolStats

namespace CreateSplashPool

/-- Embedding of `CreateSplashPool.tsx` lines 80-214.  The try block assembles
the instruction manually (mint ordering, PDA derivation, 19-byte data buffer,
11-account list) and serializes it; its catch handler logs and then re-throws
(`throw e`), so an SDK failure still rejects the promise.  `sdkErr` abstracts a
failure of the external calls inside the try block.  The result always carries
`customHoldUpTime` and leaves `prerequisiteInstructions` undefined because the
local list stays empty. -/
def getInstruction (isValid depsOk : Bool) (gov : Option String)
    (tokenAMint tokenBMint funder : String)
    (pda : String → String → String × Nat)
    (vaultA vaultB feeTierPdaKey : String) (sqrtPriceX64 : Nat)
    (holdupTime : Int) (sdkErr : Option String) : Except String UiInstruction :=
  if isValid && depsOk then
    match sdkErr with
    | some e => Except.error e
    | none =>
      Except.ok
        { serializedInstruction :=
            serializeInstructionToBase64
              (assembleFromForm tokenAMint tokenBMint funder pda vaultA vaultB
                feeTierPdaKey sqrtPriceX64)
          isValid := isValid
          governance := gov
          prerequisiteInstructions := none
          customHoldUpTime := some holdupTime }
  else
    Except.ok
      { serializedInstruction := ""
        isValid := isValid
        governance := gov
        prerequisiteInstructions := none
        customHoldUpTime := some holdupTime }

end CreateSplashPool

namespace OrcaCreateSplashPool

/-- Embedding of `OrcaCreateSplashPool.tsx` lines 95-159.  The guard folds the
validity and all dependency checks into one early return; the try block calls
the SDK's `createSplashPool` and serializes `instructions[0]` (the SDK result
is abstracted as the first instruction plus the rest); the catch handler sets
the form-level `instruction` error and returns an invalid result. -/
def getInstruction (isValid depsOk : Bool) (gov : Option String)
    (sdk : Except String (Ix × List Ix)) :
    Except String UiInstruction × FormErrors :=
  if !(isValid && depsOk) then
    (Except.ok { serializedInstruction := "", isValid := false, governance := gov }, [])
  else
    match sdk with
    | Except.error msg =>
      (Except.ok { serializedInstruction := "", isValid := false, governance := gov },
        [("instruction", "Error creating instruction: " ++ msg)])
    | Except.ok (ix, _rest) =>
      (Except.ok
        { serializedInstruction := serializeInstructionToBase64 ix
          isValid := true
          governance := gov }, [])

end OrcaCreateSplashPool

namespace OpenPositionAddLiquidity

/-- Embedding of `OpenPositionAddLiquidity.tsx` lines 108-339.  The try block
builds exactly two instructions (open position with metadata, increase
liquidity), returns the first serialized as the primary instruction and the
second in `additionalSerializedInstructions` with `chunkBy` 2; the catch
handler only logs (no form error is set) and returns an invalid result. -/
def getInstruction (isValid depsOk : Bool) (gov : Option String)
    (sdk : Except String (Ix × Ix)) :
    Except String UiInstruction × FormErrors :=
  if !(isValid && depsOk) then
    (Except.ok { serializedInstruction := "", isValid := false, governance := gov }, [])
  else
    match sdk with
    | Except.error _ =>
      (Except.ok { serializedInstruction := "", isValid := false, governance := gov }, [])
    | Except.ok (openPositionIx, increaseLiquidityIx) =>
      (Except.ok
        { serializedInstruction := serializeInstructionToBase64 openPositionIx
          isValid := true
          governance := gov
          additionalSerializedInstructions :=
            some [serializeInstructionToBase64 increaseLiquidityIx]
          chunkBy := some 2 }, [])

end OpenPositionAddLiquidity

namespace CreatePosition

/-- Embedding of `CreatePosition.tsx` lines 196-399.  On a failed guard the
result is invalid with the three accumulator arrays (still empty) attached.
The try block is abstracted as the SDK outcome: on success it yields the built
transaction instructions and the collected signers; every instruction is
serialized into `additionalSerializedInstructions` and the success result
keeps `serializedInstruction` empty by design with `chunkBy` 2.  The catch
handler sets the form-level `_error` message; signers collected before a
failure are abstracted to the empty list. -/
def getInstruction (isValid depsOk : Bool) (gov : Option String)
    (sdk : Except String (List Ix × List String)) :
    Except String UiInstruction × FormErrors :=
  if !(isValid && depsOk) then
    (Except.ok
      { serializedInstruction := ""
        isValid := false
        governance := gov
        prerequisiteInstructions := some []
        prerequisiteInstructionsSigners := some []
        additionalSerializedInstructions := some [] }, [])
  else
    match sdk with
    | Except.error msg =>
      (Except.ok
        { serializedInstruction := ""
          isValid := false
          governance := gov
          prerequisiteInstructions := some []
          prerequisiteInstructionsSigners := some []
          additionalSerializedInstructions := some [] },
        [("_error", "Failed to create instruction: " ++ msg)])
    | Except.ok (ixs, signers) =>
      (Except.ok
        { serializedInstruction := ""
          isValid := true
          governance := gov
          prerequisiteInstructions := some []
          prerequisiteInstructionsSigners := some signers
          additionalSerializedInstructions :=
            some (ixs.map serializeInstructionToBase64)
          chunkBy := some 2 }, [])

end CreatePosition

namespace AddLiquidity

/-- The catch handler of `AddLiquidity.tsx` lines 284-307: the error message
is dispatched on substrings to a field-scoped or form-level error entry. -/
def dispatchError (msg : String) : FormErrors :=
  if strContains msg "Position account (PDA) not found" then
    [("positionMint", msg)]
  else if strContains msg "authority mismatch" then
    [("governedAccount", msg)]
  else if strContains msg "Pool account not found" then
    [("_error", "Failed to find pool for position: " ++ msg)]
  else if strContains msg "parse" || strContains msg "offset" then
    [("_error", "Failed to parse account data: " ++ msg)]
  else if strContains msg "amount conversion" || strContains msg "Mint account not found" then
    [("tokenAAmount", msg), ("tokenBAmount", msg)]
  else if strContains msg "signTransaction" then
    [("_error", "Wallet signing function might be incompatible: " ++ msg)]
  else if strContains msg "serializeInstructionToBase64" || strContains msg "invalid structure" then
    [("_error", "Failed to serialize instructions - format mismatch likely: " ++ msg)]
  else
    [("_error", "Failed to create instruction: " ++ msg)]

/-- Embedding of `AddLiquidity.tsx` lines 150-320.  The guard covers validity,
governed account, transfer address, wallet and connection; the try block calls
`increaseLiquidityInstructions` and serializes every returned instruction into
`additionalSerializedInstructions` (the prerequisite list stays empty); the
catch handler dispatches the message to a form error and returns an invalid
result; success keeps `serializedInstruction` empty with `chunkBy` 2. -/
def getInstruction (isValid depsOk : Bool) (gov : Option String)
    (sdk : Except String (List Ix)) :
    Except String UiInstruction × FormErrors :=
  if !(isValid && depsOk) then
    (Except.ok
      { serializedInstruction := ""
        isValid := false
        governance := gov
        prerequisiteInstructions := some []
        prerequisiteInstructionsSigners := some []
        additionalSerializedInstructions := some [] }, [])
  else
    match sdk with
    | Except.error msg =>
      (Except.ok
        { serializedInstruction := ""
          isValid := false
          governance := gov
          prerequisiteInstructions := some []
          prerequisiteInstructionsSigners := some []
          additionalSerializedInstructions := some [] }, dispatchError msg)
    | Except.ok ixs =>
      (Except.ok
        { serializedInstruction := ""
          isValid := true
          governance := gov
          prerequisiteInstructions := some []
          prerequisiteInstructionsSigners := some []
          additionalSerializedInstructions :=
            some (ixs.map serializeInstructionToBase64)
          chunkBy := some 2 }, [])

end AddLiquidity

namespace RemoveLiquidity

/-- The catch handler of `RemoveLiquidity.tsx` lines 280-301, identical in
structure to the one in `AddLiquidity.tsx` with the amount errors keyed on the
remove-amount fields. -/
def dispatchError (msg : String) : FormErrors :=
  if strContains msg "Position account (PDA) not found" then
    [("positionMint", msg)]
  else if strContains msg "authority mismatch" then
    [("governedAccount", msg)]
  else if strContains msg "Pool account not found" then
    [("_error", "Failed to find pool for position: " ++ msg)]
  else if strContains msg "parse" || strContains msg "offset" then
    [("_error", "Failed to parse account data: " ++ msg)]
  else if strContains msg "amount conversion" || strContains msg "Mint account not found" then
    [("tokenAAmountToRemove", msg), ("tokenBAmountToRemove", msg)]
  else if strContains msg "signTransaction" then
    [("_error", "Wallet signing function might be incompatible: " ++ msg)]
  else if strContains msg "serializeInstructionToBase64" || strContains msg "invalid structure" then
    [("_error", "Failed to serialize instructions - format mismatch likely: " ++ msg)]
  else
    [("_error", "Failed to create instruction: " ++ msg)]

/-- Embedding of `RemoveLiquidity.tsx` lines 145-314, same shape as the
`AddLiquidity` embedding around `decreaseLiquidityInstructions`. -/
def getInstruction (isValid depsOk : Bool) (gov : Option String)
    (sdk : Except String (List Ix)) :
    Except String UiInstruction × FormErrors :=
  if !(isValid && depsOk) then
    (Except.ok
      { serializedInstruction := ""
        isValid := false
        governance := gov
        prerequisiteInstructions := some []
        prerequisiteInstructionsSigners := some []
        additionalSerializedInstructions := some [] }, [])
  else
    match sdk with
    | Except.error msg =>
      (Except.ok
        { serializedInstruction := ""
          isValid := false
          governance := gov
          prerequisiteInstructions := some []
          prerequisiteInstructionsSigners := some []
          additionalSerializedInstructions := some [] }, dispatchError msg)
    | Except.ok ixs =>
      (Except.ok
        { serializedInstruction := ""
          isValid := true
          governance := gov
          prerequisiteInstructions := some []
          prerequisiteInstructionsSigners := some []
          additionalSerializedInstructions :=
            some (ixs.map serializeInstructionToBase64)
          chunkBy := some 2 }, [])

end RemoveLiquidity

namespace CreatePool

/-- The catch handler of `CreatePool.tsx` lines 230-240 (same dispatch as
`CollectFees.tsx` lines 173-183): three substring branches, all form-level. -/
def dispatchError (msg : String) : FormErrors :=
  if strContains msg "signTransaction" then
    [("_error", "Wallet signing function might be incompatible: " ++ msg)]
  else if strContains msg "serializeInstructionToBase64" || strContains msg "invalid structure" then
    [("_error", "Failed to serialize instructions - format mismatch likely: " ++ msg)]
  else
    [("_error", "Failed to create instruction: " ++ msg)]

/-- Embedding of `CreatePool.tsx` lines 132-253: guard, SDK pool-creation call
(splash or concentrated), serialization of every returned instruction into
`additionalSerializedInstructions`, catch dispatch, success with empty
`serializedInstruction` and `chunkBy` 2. -/
def getInstruction (isValid depsOk : Bool) (gov : Option String)
    (sdk : Except String (List Ix)) :
    Except String UiInstruction × FormErrors :=
  if !(isValid && depsOk) then
    (Except.ok
      { serializedInstruction := ""
        isValid := false
        governance := gov
        prerequisiteInstructions := some []
        prerequisiteInstructionsSigners := some []
        additionalSerializedInstructions := some [] }, [])
  else
    match sdk with
    | Except.error msg =>
      (Except.ok
        { serializedInstruction := ""
          isValid := false
          governance := gov
          prerequisiteInstructions := some []
          prerequisiteInstructionsSigners := some []
          additionalSerializedInstructions := some [] }, dispatchError msg)
    | Except.ok ixs =>
      (Except.ok
        { serializedInstruction := ""
          isValid := true
          governance := gov
          prerequisiteInstructions := some []
          prerequisiteInstructionsSigners := some []
          additionalSerializedInstructions :=
            some (ixs.map serializeInstructionToBase64)
          chunkBy := some 2 }, [])

end CreatePool

namespace CollectFees

/-- Embedding of `CollectFees.tsx` lines 88-195: guard (validity, governed
account, transfer address, wallet, connection), `harvestPositionInstructions`
call, serialization of every returned instruction, the same three-branch catch
dispatch as `CreatePool`, success with empty `serializedInstruction` and
`chunkBy` 2. -/
def getInstruction (isValid depsOk : Bool) (gov : Option String)
    (sdk : Except String (List Ix)) :
    Except String UiInstruction × FormErrors :=
  if !(isValid && depsOk) then
    (Except.ok
      { serializedInstruction := ""
        isValid := false
        governance := gov
        prerequisiteInstructions := some []
        prerequisiteInstructionsSigners := some []
        additionalSerializedInstructions := some [] }, [])
  else
    match sdk with
    | Except.error msg =>
      (Except.ok
        { serializedInstruction := ""
          isValid := false
          governance := gov
          prerequisiteInstructions := some []
          prerequisiteInstructionsSigners := some []
          additionalSerializedInstructions := some [] }, CreatePool.dispatchError msg)
    | Except.ok ixs =>
      (Except.ok
        { serializedInstruction := ""
          isValid := true
          governance := gov
          prerequisiteInstructions := some []
          prerequisiteInstructionsSigners := some []
          additionalSerializedInstructions :=
            some (ixs.map serializeInstructionToBase64)
          chunkBy := some 2 }, [])

end CollectFees

/-! Helper lemmas about the byte-level encoders and the error dispatchers. -/

theorem leBytesToNat_nil : leBytesToNat [] = 0 := rfl

theorem leBytesToNat_cons (b : Nat) (l : List Nat) :
    leBytesToNat (b :: l) = b + 256 * leBytesToNat l := rfl

theorem natToLEBytes_length (w n : Nat) : (natToLEBytes w n).length = w := by
  simp [natToLEBytes]

theorem natToLEBytes_succ (w n : Nat) :
    natToLEBytes (w + 1) n = n % 256 :: natToLEBytes w (n / 256) := by
  unfold natToLEBytes
  rw [List.range_succ_eq_map, List.map_cons, List.map_map]
  refine congrArg₂ _ (by simp) (List.map_congr_left fun i _ => ?_)
  simp only [Function.comp]
  rw [pow_succ, Nat.div_div_eq_div_mul, mul_comm 256 (256 ^ i), ← Nat.div_div_eq_div_mul]

/-- Little-endian round trip: decoding the fixed-width encoding of a value
below the width bound recovers the value. -/
theorem leBytesToNat_natToLEBytes (w : Nat) :
    ∀ n : Nat, n < 256 ^ w → leBytesToNat (natToLEBytes w n) = n := by
  induction w with
  | zero =>
    intro n hn
    interval_cases n
    rfl
  | succ w ih =>
    intro n hn
    rw [natToLEBytes_succ, leBytesToNat_cons, ih (n / 256) ?_, Nat.mod_add_div]
    rw [pow_succ] at hn
    exact Nat.div_lt_of_lt_mul (by linarith [hn])

theorem base64Encode_ne_empty (b : Nat) (rest : List Nat) :
    base64Encode (b :: rest) ≠ "" := by
  intro h
  have hdata := congrArg String.data h
  match rest with
  | [] => simp [base64Encode] at hdata
  | [b2] => simp [base64Encode] at hdata
  | b2 :: b3 :: tail =>
    simp only [base64Encode, String.data_append] at hdata
    simp at hdata

theorem pubkeyBytes32_length (s : String) : (pubkeyBytes32 s).length = 32 := by
  unfold pubkeyBytes32
  match base58DecodeNat s with
  | none => simp
  | some n => simp [natToLEBytes_length]

/-- Serializing any instruction yields a non-empty base64 string, because the
encoded bytes always start with the 32-byte program id. -/
theorem serializeInstructionToBase64_ne_empty (ix : Ix) :
    serializeInstructionToBase64 ix ≠ "" := by
  unfold serializeInstructionToBase64 instructionBytes
  have h32 := pubkeyBytes32_length ix.programId
  match hp : pubkeyBytes32 ix.programId with
  | [] => rw [hp] at h32; simp at h32
  | b :: rest =>
    rw [List.cons_append, List.cons_append, List.cons_append]
    exact base64Encode_ne_empty _ _

set_option maxHeartbeats 1000000 in
/-- The write-loop assembly laid out as an explicit byte list. -/
theorem CreateSplashPool.splashPoolInstructionData_eq (whirlpoolBump sqrtPriceX64 : Nat) :
    splashPoolInstructionData whirlpoolBump sqrtPriceX64 =
      0 :: whirlpoolBump :: 8 :: natToLEBytes 16 sqrtPriceX64 := by
  simp only [splashPoolInstructionData, natToLEBytes, List.range_succ, List.foldl_concat,
    List.foldl_nil, List.map_append, List.map_cons, List.map_nil]
  rfl

/-- Every branch of the `AddLiquidity` catch dispatch stores an error entry. -/
theorem addLiquidity_dispatchError_ne_nil (msg : String) :
    AddLiquidity.dispatchError msg ≠ [] := by
  unfold AddLiquidity.dispatchError
  repeat' split
  all_goals simp

/-- Every branch of the `RemoveLiquidity` catch dispatch stores an error
entry. -/
theorem removeLiquidity_dispatchError_ne_nil (msg : String) :
    RemoveLiquidity.dispatchError msg ≠ [] := by
  unfold RemoveLiquidity.dispatchError
  repeat' split
  all_goals simp

/-- Every branch of the `CreatePool` and `CollectFees` catch dispatch stores
an error entry. -/
theorem createPool_dispatchError_ne_nil (msg : String) :
    CreatePool.dispatchError msg ≠ [] := by
  unfold CreatePool.dispatchError
  repeat' split
  all_goals simp

/-! Claim theorems. -/

/-- C10: for every buffer and every integer offset, `parsePublicKeyFromBuffer`
returns `null` exactly when the offset is negative or the buffer holds fewer
than `offset + 32` bytes; otherwise it returns the 32 bytes starting at the
offset, all of which lie inside the buffer, so it never reads out of bounds. -/
theorem c10_parse_pubkey_from_buffer_bounds (buffer : List Nat) (offset : Int) :
    (parsePublicKeyFromBuffer buffer offset = none ↔
      offset < 0 ∨ (buffer.length : Int) < offset + 32) ∧
    (∀ bytes, parsePublicKeyFromBuffer buffer offset = some bytes →
      0 ≤ offset ∧ offset.toNat + 32 ≤ buffer.length ∧ bytes.length = 32 ∧
        ∀ i, i < 32 → bytes.get? i = buffer.get? (offset.toNat + i)) := by
  unfold parsePublicKeyFromBuffer
  by_cases h : offset < 0 ∨ (buffer.length : Int) < offset + 32
  · rw [if_pos h]
    exact ⟨by simp [h], fun bytes hb => by cases hb⟩
  · rw [if_neg h]
    push_neg at h
    obtain ⟨h0, hlen⟩ := h
    have hnat : offset.toNat + 32 ≤ buffer.length := by omega
    refine ⟨by simp [h0, hlen], fun bytes hb => ?_⟩
    obtain rfl : bytes = (buffer.drop offset.toNat).take 32 := by
      cases hb; rfl
    refine ⟨h0, hnat, ?_, fun i hi => ?_⟩
    · simp [List.length_take, List.length_drop]
      omega
    · rw [List.get?_take hi, List.get?_drop]

/-- C10 witness: the bounds theorem applied to a 40-byte buffer at a negative
offset. -/
theorem c10_witness_negative_offset :
    parsePublicKeyFromBuffer (List.replicate 40 7) (-1) = none :=
  (c10_parse_pubkey_from_buffer_bounds (List.replicate 40 7) (-1)).1.mpr
    (Or.inl (by decide))

/-- C9: for distinct mint strings, swapping the two mint form fields leaves
the ordered pair, and with it the whole manually assembled initialize-pool
instruction of `CreateSplashPool.tsx` (whirlpool PDA input included),
unchanged. -/
theorem c9_mint_ordering_commutes (tokenAMint tokenBMint funder : String)
    (pda : String → String → String × Nat)
    (vaultA vaultB feeTierPdaKey : String) (sqrtPriceX64 : Nat)
    (hne : tokenAMint ≠ tokenBMint) :
    CreateSplashPool.orderMints tokenAMint tokenBMint =
      CreateSplashPool.orderMints tokenBMint tokenAMint ∧
    CreateSplashPool.assembleFromForm tokenAMint tokenBMint funder pda vaultA
        vaultB feeTierPdaKey sqrtPriceX64 =
      CreateSplashPool.assembleFromForm tokenBMint tokenAMint funder pda vaultA
        vaultB feeTierPdaKey sqrtPriceX64 := by
  have hcomm : CreateSplashPool.orderMints tokenAMint tokenBMint =
      CreateSplashPool.orderMints tokenBMint tokenAMint := by
    unfold CreateSplashPool.orderMints
    rcases lt_trichotomy tokenAMint tokenBMint with h | h | h
    · rw [if_pos h, if_neg (asymm h)]
    · exact absurd h hne
    · rw [if_neg (asymm h), if_pos h]
  exact ⟨hcomm, by unfold CreateSplashPool.assembleFromForm; rw [hcomm]⟩

/-- C9 witness: the ordering theorem applied to the concrete distinct mints
`A` and `B`. -/
theorem c9_witness_concrete_mints :
    CreateSplashPool.orderMints "A" "B" = CreateSplashPool.orderMints "B" "A" :=
  (c9_mint_ordering_commutes "A" "B" "F" (fun _ _ => ("W", 255)) "VA" "VB" "FT"
    1 (by decide)).1

/-- C8: the manually assembled initialize-pool instruction of
`CreateSplashPool.tsx` has exactly 19 data bytes - discriminator 0, the
whirlpool bump, tick spacing 8, then the 16-byte little-endian encoding of
`sqrtPriceX64` (decoding those 16 bytes recovers the value) - and exactly 11
account keys in the fixed order config, ordered mint A, ordered mint B,
funder, whirlpool PDA, vault A, vault B, fee tier PDA, token program, system
program, rent sysvar. -/
theorem c8_splash_pool_instruction_layout
    (orderedMintA orderedMintB funder whirlpoolPdaKey : String)
    (whirlpoolBump : Nat) (vaultA vaultB feeTierPdaKey : String)
    (sqrtPriceX64 : Nat) (hsq : sqrtPriceX64 < 2 ^ 128) :
    (CreateSplashPool.assembledIx orderedMintA orderedMintB funder
        whirlpoolPdaKey whirlpoolBump vaultA vaultB feeTierPdaKey
        sqrtPriceX64).data.length = 19 ∧
    (CreateSplashPool.assembledIx orderedMintA orderedMintB funder
        whirlpoolPdaKey whirlpoolBump vaultA vaultB feeTierPdaKey
        sqrtPriceX64).data.get? 0 = some 0 ∧
    (CreateSplashPool.assembledIx orderedMintA orderedMintB funder
        whirlpoolPdaKey whirlpoolBump vaultA vaultB feeTierPdaKey
        sqrtPriceX64).data.get? 1 = some whirlpoolBump ∧
    (CreateSplashPool.assembledIx orderedMintA orderedMintB funder
        whirlpoolPdaKey whirlpoolBump vaultA vaultB feeTierPdaKey
        sqrtPriceX64).data.get? 2 = some 8 ∧
    ((CreateSplashPool.assembledIx orderedMintA orderedMintB funder
        whirlpoolPdaKey whirlpoolBump vaultA vaultB feeTierPdaKey
        sqrtPriceX64).data.drop 3).length = 16 ∧
    leBytesToNat ((CreateSplashPool.assembledIx orderedMintA orderedMintB
        funder whirlpoolPdaKey whirlpoolBump vaultA vaultB feeTierPdaKey
        sqrtPriceX64).data.drop 3) = sqrtPriceX64 ∧
    (CreateSplashPool.assembledIx orderedMintA orderedMintB funder
        whirlpoolPdaKey whirlpoolBump vaultA vaultB feeTierPdaKey
        sqrtPriceX64).keys.length = 11 ∧
    (CreateSplashPool.assembledIx orderedMintA orderedMintB funder
        whirlpoolPdaKey whirlpoolBump vaultA vaultB feeTierPdaKey
        sqrtPriceX64).keys.map AccountMeta.pubkey =
      [whirlpoolsConfigAddr, orderedMintA, orderedMintB, funder,
        whirlpoolPdaKey, vaultA, vaultB, feeTierPdaKey, tokenProgramId,
        systemProgramId, sysvarRentId] := by
  have hdata : (CreateSplashPool.assembledIx orderedMintA orderedMintB funder
      whirlpoolPdaKey whirlpoolBump vaultA vaultB feeTierPdaKey
      sqrtPriceX64).data =
        0 :: whirlpoolBump :: 8 :: natToLEBytes 16 sqrtPriceX64 := by
    have h := CreateSplashPool.splashPoolInstructionData_eq whirlpoolBump sqrtPriceX64
    simpa only [CreateSplashPool.assembledIx] using h
  have hsq16 : sqrtPriceX64 < 256 ^ 16 := by
    calc sqrtPriceX64 < 2 ^ 128 := hsq
    _ = 256 ^ 16 := by norm_num
  refine ⟨?_, ?_, ?_, ?_, ?_, ?_, rfl, rfl⟩
  · rw [hdata]; simp [natToLEBytes_length]
  · rw [hdata]; rfl
  · rw [hdata]; rfl
  · rw [hdata]; rfl
  · rw [hdata]; simp [natToLEBytes_length]
  · rw [hdata]
    simpa using leBytesToNat_natToLEBytes 16 sqrtPriceX64 hsq16

/-- C8 witness: the layout theorem applied at bump 255 and sqrt price 5. -/
theorem c8_witness_concrete_layout :
    (CreateSplashPool.assembledIx "ma" "mb" "funder" "wp" 255 "va" "vb" "ft"
      5).data.length = 19 :=
  (c8_splash_pool_instruction_layout "ma" "mb" "funder" "wp" 255 "va" "vb"
    "ft" 5 (by decide)).1

/-- C4 counterexample: the `tokenInputLogic` test of `AddLiquidity.tsx` and
the `tokenAmounts` test of `CreatePosition.tsx` accept a form in which both
token amounts are positive, while the claim says both-positive inputs are
rejected everywhere. -/
theorem c4_counterexample_both_positive_accepted :
    Schemas.addLiquidityTokenInputLogic 1 1 = true ∧
    Schemas.createPositionTokenAmounts 1 1 = true := ⟨rfl, rfl⟩

/-- C4 amended: only `RemoveLiquidity` requires exactly one of the two token
amounts positive; `AddLiquidity` and `CreatePosition` accept a form whenever
at least one amount is positive (both-positive included); both-zero is
rejected by all three. -/
theorem c4_amended_token_amount_rules (amountA amountB : ℚ) :
    (Schemas.removeLiquidityTokenInputLogic amountA amountB = true ↔
      (0 < amountA ∧ amountB = 0) ∨ (amountA = 0 ∧ 0 < amountB)) ∧
    (Schemas.addLiquidityTokenInputLogic amountA amountB = true ↔
      0 < amountA ∨ 0 < amountB) ∧
    (Schemas.createPositionTokenAmounts amountA amountB = true ↔
      0 < amountA ∨ 0 < amountB) := by
  unfold Schemas.removeLiquidityTokenInputLogic
    Schemas.addLiquidityTokenInputLogic Schemas.createPositionTokenAmounts
  simp [Bool.or_eq_true, Bool.and_eq_true, decide_eq_true_eq]

/-- C5: evaluation of the declared must-be-positive rules.  The `is-positive`
test of `CreatePool.tsx` accepts the string `0` even though its own message
says "Initial price must be positive", because `Decimal.isPositive` only
inspects the sign field; a negative value is rejected and `0.01` accepted.
The corresponding rules of `CreateSplashPool.tsx` (`min(0.000001)`) and
`OpenPositionAddLiquidity.tsx` (`moreThan(0)`) do reject zero. -/
theorem c5_positive_rule_evaluations :
    Schemas.createPoolInitialPrice "0" = true ∧
    Schemas.createPoolInitialPrice "-0.5" = false ∧
    Schemas.createPoolInitialPrice "0.01" = true ∧
    Schemas.createSplashPoolInitialPrice 0 = false ∧
    Schemas.createSplashPoolInitialPrice (1 / 100) = true ∧
    Schemas.createSplashPoolInitialPrice (-1) = false ∧
    Schemas.openPositionLowerPrice 0 = false ∧
    Schemas.openPositionLowerPrice (1 / 100) = true := by
  refine ⟨rfl, rfl, rfl, ?_, ?_, ?_, ?_, ?_⟩ <;>
    norm_num [Schemas.createSplashPoolInitialPrice,
      Schemas.openPositionLowerPrice]

/-- C6 counterexample: the `positionMint` field of `ClosePosition.tsx` is a
required address field whose schema has no public-key test, so a malformed
non-base58 string passes its validation. -/
theorem c6_counterexample_closePosition_accepts_malformed :
    Schemas.closePositionPositionMint "not-a-valid-pubkey" = true ∧
    isValidPubkeyStr "not-a-valid-pubkey" = false := ⟨rfl, rfl⟩

/-- C6 amended: address fields that declare a plain public-key test
(`CreateSplashPool` token mints, `CreatePosition` pool address,
`AddLiquidity`/`RemoveLiquidity`/`CollectFees` position mint, `CreatePool`
token A mint, `OpenPositionAddLiquidity` whirlpool address) accept a string
iff it is non-empty and decodes as a 32-byte base58 key, and `required`
rejects the missing or empty field; `CreatePool` token B mint additionally
requires the string to differ from the token A mint field, rejecting even a
valid base58 key equal to it; the `positionMint` of `ClosePosition` and the
mint fields of `QueryPoolStats` are only checked for non-emptiness.  A
genuine base58 key passes the decoder and a malformed string fails it. -/
theorem c6_amended_address_field_validation (tokenAMint s : String) :
    (Schemas.createSplashPoolTokenMint s = true ↔
      s ≠ "" ∧ isValidPubkeyStr s = true) ∧
    (Schemas.createPositionPoolAddress s = true ↔
      s ≠ "" ∧ isValidPubkeyStr s = true) ∧
    (Schemas.addLiquidityPositionMint s = true ↔
      s ≠ "" ∧ isValidPubkeyStr s = true) ∧
    (Schemas.createPoolTokenAMint s = true ↔
      s ≠ "" ∧ isValidPubkeyStr s = true) ∧
    (Schemas.openPositionWhirlpoolAddress s = true ↔
      s ≠ "" ∧ isValidPubkeyStr s = true) ∧
    (Schemas.createPoolTokenBMint tokenAMint s = true ↔
      s ≠ "" ∧ isValidPubkeyStr s = true ∧ tokenAMint ≠ s) ∧
    (Schemas.closePositionPositionMint s = true ↔ s ≠ "") ∧
    (Schemas.queryPoolStatsTokenMint s = true ↔ s ≠ "") ∧
    isValidPubkeyStr systemProgramId = true ∧
    isValidPubkeyStr orcaWhirlpoolProgramId = true ∧
    isValidPubkeyStr "" = false ∧
    Schemas.createSplashPoolTokenMint "" = false ∧
    Schemas.createPoolTokenBMint systemProgramId systemProgramId = false := by
  unfold Schemas.createSplashPoolTokenMint Schemas.createPositionPoolAddress
    Schemas.addLiquidityPositionMint Schemas.createPoolTokenAMint
    Schemas.openPositionWhirlpoolAddress Schemas.createPoolTokenBMint
    Schemas.closePositionPositionMint Schemas.queryPoolStatsTokenMint
  refine ⟨?_, ?_, ?_, ?_, ?_, ?_, ?_, ?_, by decide, by decide, by decide,
      rfl, by simp⟩ <;>
    by_cases hs : s = "" <;>
      simp [hs, String.isEmpty_iff, Bool.eq_false_iff, and_assoc]

/-- C3: in every instruction-builder component, when schema validation fails
(`isValid` is false) the returned object is delivered normally and has
`isValid: false` with an empty `serializedInstruction`, whatever the state of
the other dependencies and of the SDK. -/
theorem c3_validation_failure_returns_invalid_empty (depsOk : Bool)
    (gov : Option String) (sdkIxs : Except String (List Ix))
    (sdkFetch : Except String Unit) (sdkPos : Except String (List Ix × List String))
    (sdkOne : Except String (Ix × List Ix)) (sdkTwo : Except String (Ix × Ix))
    (tokenAMint tokenBMint funder : String)
    (pda : String → String → String × Nat)
    (vaultA vaultB feeTierPdaKey : String) (sqrtPriceX64 : Nat)
    (holdupTime : Int) (sdkErr : Option String) :
    ClosePosition.getInstruction false depsOk gov sdkIxs =
      Except.ok { serializedInstruction := "", isValid := false, governance := gov } ∧
    QueryPoolStats.getInstruction false depsOk gov sdkFetch =
      Except.ok { serializedInstruction := "", isValid := false, governance := gov } ∧
    CreateSplashPool.getInstruction false depsOk gov tokenAMint tokenBMint
        funder pda vaultA vaultB feeTierPdaKey sqrtPriceX64 holdupTime sdkErr =
      Except.ok
        { serializedInstruction := ""
          isValid := false
          governance := gov
          customHoldUpTime := some holdupTime } ∧
    (∃ r, (OrcaCreateSplashPool.getInstruction false depsOk gov sdkOne).fst =
      Except.ok r ∧ r.isValid = false ∧ r.serializedInstruction = "") ∧
    (∃ r, (OpenPositionAddLiquidity.getInstruction false depsOk gov sdkTwo).fst =
      Except.ok r ∧ r.isValid = false ∧ r.serializedInstruction = "") ∧
    (∃ r, (CreatePosition.getInstruction false depsOk gov sdkPos).fst =
      Except.ok r ∧ r.isValid = false ∧ r.serializedInstruction = "") ∧
    (∃ r, (AddLiquidity.getInstruction false depsOk gov sdkIxs).fst =
      Except.ok r ∧ r.isValid = false ∧ r.serializedInstruction = "") ∧
    (∃ r, (RemoveLiquidity.getInstruction false depsOk gov sdkIxs).fst =
      Except.ok r ∧ r.isValid = false ∧ r.serializedInstruction = "") ∧
    (∃ r, (CreatePool.getInstruction false depsOk gov sdkIxs).fst =
      Except.ok r ∧ r.isValid = false ∧ r.serializedInstruction = "") ∧
    (∃ r, (CollectFees.getInstruction false depsOk gov sdkIxs).fst =
      Except.ok r ∧ r.isValid = false ∧ r.serializedInstruction = "") :=
  ⟨rfl, rfl, rfl, ⟨_, rfl, rfl, rfl⟩, ⟨_, rfl, rfl, rfl⟩, ⟨_, rfl, rfl, rfl⟩,
    ⟨_, rfl, rfl, rfl⟩, ⟨_, rfl, rfl, rfl⟩, ⟨_, rfl, rfl, rfl⟩,
    ⟨_, rfl, rfl, rfl⟩⟩

/-- C2 counterexample: with validation passed and dependencies present, an SDK
exception escapes `getInstruction` in `ClosePosition.tsx` (no try/catch at
all), in `CreateSplashPool.tsx` (its catch block re-throws) and in
`QueryPoolStats.tsx`, contradicting the claim that exceptions never propagate
to the caller. -/
theorem c2_counterexample_sdk_errors_propagate :
    ClosePosition.getInstruction true true (some "governance")
      (Except.error "SDK failure") = Except.error "SDK failure" ∧
    CreateSplashPool.getInstruction true true (some "governance") "mintA"
      "mintB" "funder" (fun a _ => (a, 255)) "vaultA" "vaultB" "feeTier" 1 0
      (some "SDK failure") = Except.error "SDK failure" ∧
    QueryPoolStats.getInstruction true true (some "governance")
      (Except.error "SDK failure") = Except.error "SDK failure" :=
  ⟨rfl, rfl, rfl⟩

/-- C2 amended: an SDK exception thrown inside `getInstruction` is caught and
turned into a returned object with `isValid: false` and empty serialized
instruction in `CreatePosition`, `AddLiquidity`, `RemoveLiquidity`,
`CreatePool`, `CollectFees` and `OrcaCreateSplashPool` (all of which also set
a form-level error message) and in `OpenPositionAddLiquidity` (which only
logs, setting no form error); but in `ClosePosition` and `QueryPoolStats`
there is no try/catch and in `CreateSplashPool` the catch re-throws, so there
the exception propagates to the caller. -/
theorem c2_amended_catch_behavior (msg : String) (gov : Option String)
    (tokenAMint tokenBMint funder : String)
    (pda : String → String → String × Nat)
    (vaultA vaultB feeTierPdaKey : String) (sqrtPriceX64 : Nat)
    (holdupTime : Int) :
    (∃ r, (CreatePosition.getInstruction true true gov (Except.error msg)).fst =
      Except.ok r ∧ r.isValid = false ∧ r.serializedInstruction = "") ∧
    (CreatePosition.getInstruction true true gov (Except.error msg)).snd =
      [("_error", "Failed to create instruction: " ++ msg)] ∧
    (∃ r, (AddLiquidity.getInstruction true true gov (Except.error msg)).fst =
      Except.ok r ∧ r.isValid = false ∧ r.serializedInstruction = "") ∧
    (AddLiquidity.getInstruction true true gov (Except.error msg)).snd ≠ [] ∧
    (∃ r, (RemoveLiquidity.getInstruction true true gov (Except.error msg)).fst =
      Except.ok r ∧ r.isValid = false ∧ r.serializedInstruction = "") ∧
    (RemoveLiquidity.getInstruction true true gov (Except.error msg)).snd ≠ [] ∧
    (∃ r, (CreatePool.getInstruction true true gov (Except.error msg)).fst =
      Except.ok r ∧ r.isValid = false ∧ r.serializedInstruction = "") ∧
    (CreatePool.getInstruction true true gov (Except.error msg)).snd ≠ [] ∧
    (∃ r, (CollectFees.getInstruction true true gov (Except.error msg)).fst =
      Except.ok r ∧ r.isValid = false ∧ r.serializedInstruction = "") ∧
    (CollectFees.getInstruction true true gov (Except.error msg)).snd ≠ [] ∧
    (∃ r, (OrcaCreateSplashPool.getInstruction true true gov (Except.error msg)).fst =
      Except.ok r ∧ r.isValid = false ∧ r.serializedInstruction = "") ∧
    (OrcaCreateSplashPool.getInstruction true true gov (Except.error msg)).snd =
      [("instruction", "Error creating instruction: " ++ msg)] ∧
    (∃ r, (OpenPositionAddLiquidity.getInstruction true true gov (Except.error msg)).fst =
      Except.ok r ∧ r.isValid = false ∧ r.serializedInstruction = "") ∧
    (OpenPositionAddLiquidity.getInstruction true true gov (Except.error msg)).snd = [] ∧
    ClosePosition.getInstruction true true gov (Except.error msg) =
      Except.error msg ∧
    QueryPoolStats.getInstruction true true gov (Except.error msg) =
      Except.error msg ∧
    CreateSplashPool.getInstruction true true gov tokenAMint tokenBMint funder
        pda vaultA vaultB feeTierPdaKey sqrtPriceX64 holdupTime (some msg) =
      Except.error msg :=
  ⟨⟨_, rfl, rfl, rfl⟩, rfl, ⟨_, rfl, rfl, rfl⟩,
    addLiquidity_dispatchError_ne_nil msg, ⟨_, rfl, rfl, rfl⟩,
    removeLiquidity_dispatchError_ne_nil msg, ⟨_, rfl, rfl, rfl⟩,
    createPool_dispatchError_ne_nil msg, ⟨_, rfl, rfl, rfl⟩,
    createPool_dispatchError_ne_nil msg, ⟨_, rfl, rfl, rfl⟩, rfl,
    ⟨_, rfl, rfl, rfl⟩, rfl, rfl, rfl, rfl⟩

/-- C7 counterexample: a successful `ClosePosition` output carries none of the
optional fields - in particular no `chunkBy` hint - contradicting the claim
that every successful output carries a chunk-by-N hint. -/
theorem c7_counterexample_closePosition_lacks_chunk_hint :
    (ClosePosition.getInstruction true true (some "governance")
      (Except.ok [QueryPoolStats.noopIx])).toOption.map UiInstruction.chunkBy =
      some none ∧
    (ClosePosition.getInstruction true true (some "governance")
      (Except.ok [QueryPoolStats.noopIx])).toOption.map
        UiInstruction.additionalSerializedInstructions = some none ∧
    (ClosePosition.getInstruction true true (some "governance")
      (Except.ok [QueryPoolStats.noopIx])).toOption.map
        UiInstruction.prerequisiteInstructions = some none ∧
    (ClosePosition.getInstruction true true (some "governance")
      (Except.ok [QueryPoolStats.noopIx])).toOption.map UiInstruction.isValid =
      some true := ⟨rfl, rfl, rfl, rfl⟩

/-- C7 amended: a successful output is a `UiInstruction` carrying the primary
serialized instruction plus the optional arrays, but the chunk-by-N hint is
only present (with value 2) in `CreatePosition`, `AddLiquidity`,
`RemoveLiquidity`, `CreatePool`, `CollectFees` and
`OpenPositionAddLiquidity`; the successful outputs of `ClosePosition`,
`QueryPoolStats`, `CreateSplashPool` and `OrcaCreateSplashPool` omit it. -/
theorem c7_amended_output_structure (gov : Option String) (ix ix2 : Ix)
    (rest : List Ix) (signers : List String)
    (tokenAMint tokenBMint funder : String)
    (pda : String → String → String × Nat)
    (vaultA vaultB feeTierPdaKey : String) (sqrtPriceX64 : Nat)
    (holdupTime : Int) :
    (∃ r, (CreatePosition.getInstruction true true gov
        (Except.ok (ix :: rest, signers))).fst = Except.ok r ∧
      r.chunkBy = some 2 ∧
      r.additionalSerializedInstructions =
        some ((ix :: rest).map serializeInstructionToBase64) ∧
      r.prerequisiteInstructions = some [] ∧
      r.prerequisiteInstructionsSigners = some signers) ∧
    (∃ r, (AddLiquidity.getInstruction true true gov
        (Except.ok (ix :: rest))).fst = Except.ok r ∧ r.chunkBy = some 2) ∧
    (∃ r, (RemoveLiquidity.getInstruction true true gov
        (Except.ok (ix :: rest))).fst = Except.ok r ∧ r.chunkBy = some 2) ∧
    (∃ r, (CreatePool.getInstruction true true gov
        (Except.ok (ix :: rest))).fst = Except.ok r ∧ r.chunkBy = some 2) ∧
    (∃ r, (CollectFees.getInstruction true true gov
        (Except.ok (ix :: rest))).fst = Except.ok r ∧ r.chunkBy = some 2) ∧
    (∃ r, (OpenPositionAddLiquidity.getInstruction true true gov
        (Except.ok (ix, ix2))).fst = Except.ok r ∧ r.chunkBy = some 2 ∧
      r.additionalSerializedInstructions =
        some [serializeInstructionToBase64 ix2]) ∧
    (∃ r, ClosePosition.getInstruction true true gov (Except.ok (ix :: rest)) =
      Except.ok r ∧ r.chunkBy = none) ∧
    (∃ r, QueryPoolStats.getInstruction true true gov (Except.ok ()) =
      Except.ok r ∧ r.chunkBy = none) ∧
    (∃ r, CreateSplashPool.getInstruction true true gov tokenAMint tokenBMint
        funder pda vaultA vaultB feeTierPdaKey sqrtPriceX64 holdupTime none =
      Except.ok r ∧ r.chunkBy = none ∧ r.customHoldUpTime = some holdupTime) ∧
    (∃ r, (OrcaCreateSplashPool.getInstruction true true gov
        (Except.ok (ix, rest))).fst = Except.ok r ∧ r.chunkBy = none) :=
  ⟨⟨_, rfl, rfl, rfl, rfl, rfl⟩, ⟨_, rfl, rfl⟩, ⟨_, rfl, rfl⟩, ⟨_, rfl, rfl⟩,
    ⟨_, rfl, rfl⟩, ⟨_, rfl, rfl, rfl⟩, ⟨_, rfl, rfl⟩, ⟨_, rfl, rfl⟩,
    ⟨_, rfl, rfl, rfl⟩, ⟨_, rfl, rfl⟩⟩

/-- C1 counterexample: in `CreatePosition.tsx` the success path returns
`isValid: true` with `serializedInstruction` deliberately the empty string
(the built instructions go to `additionalSerializedInstructions`),
contradicting the claim that a successful output always carries a non-empty
`serializedInstruction`. -/
theorem c1_counterexample_createPosition_success_empty_serialized :
    (CreatePosition.getInstruction true true (some "governance")
      (Except.ok ([QueryPoolStats.noopIx], []))).fst.toOption.map
        UiInstruction.isValid = some true ∧
    (CreatePosition.getInstruction true true (some "governance")
      (Except.ok ([QueryPoolStats.noopIx], []))).fst.toOption.map
        UiInstruction.serializedInstruction = some "" := ⟨rfl, rfl⟩

/-- C1 amended: when validation succeeds, all dependencies are present and
the SDK work succeeds, every component returns `isValid: true`;
`CreateSplashPool`, `ClosePosition` (given at least one SDK instruction),
`QueryPoolStats`, `OrcaCreateSplashPool` and `OpenPositionAddLiquidity` carry
a non-empty `serializedInstruction`, while `CreatePosition`, `AddLiquidity`,
`RemoveLiquidity`, `CreatePool` and `CollectFees` keep `serializedInstruction`
empty and carry the non-empty serialized instruction list (each entry a
non-empty base64 string) in `additionalSerializedInstructions`. -/
theorem c1_amended_success_validity_and_serialization (gov : Option String)
    (ix ix2 : Ix) (rest : List Ix) (signers : List String)
    (tokenAMint tokenBMint funder : String)
    (pda : String → String → String × Nat)
    (vaultA vaultB feeTierPdaKey : String) (sqrtPriceX64 : Nat)
    (holdupTime : Int) :
    (∃ r, CreateSplashPool.getInstruction true true gov tokenAMint tokenBMint
        funder pda vaultA vaultB feeTierPdaKey sqrtPriceX64 holdupTime none =
      Except.ok r ∧ r.isValid = true ∧ r.serializedInstruction ≠ "") ∧
    (∃ r, ClosePosition.getInstruction true true gov (Except.ok (ix :: rest)) =
      Except.ok r ∧ r.isValid = true ∧ r.serializedInstruction ≠ "") ∧
    (∃ r, QueryPoolStats.getInstruction true true gov (Except.ok ()) =
      Except.ok r ∧ r.isValid = true ∧ r.serializedInstruction ≠ "") ∧
    (∃ r, (OrcaCreateSplashPool.getInstruction true true gov
        (Except.ok (ix, rest))).fst = Except.ok r ∧ r.isValid = true ∧
      r.serializedInstruction ≠ "") ∧
    (∃ r, (OpenPositionAddLiquidity.getInstruction true true gov
        (Except.ok (ix, ix2))).fst = Except.ok r ∧ r.isValid = true ∧
      r.serializedInstruction ≠ "") ∧
    (∃ r, (CreatePosition.getInstruction true true gov
        (Except.ok (ix :: rest, signers))).fst = Except.ok r ∧
      r.isValid = true ∧ r.serializedInstruction = "" ∧
      r.additionalSerializedInstructions =
        some (serializeInstructionToBase64 ix ::
          rest.map serializeInstructionToBase64) ∧
      serializeInstructionToBase64 ix ≠ "") ∧
    (∃ r, (AddLiquidity.getInstruction true true gov
        (Except.ok (ix :: rest))).fst = Except.ok r ∧
      r.isValid = true ∧ r.serializedInstruction = "" ∧
      r.additionalSerializedInstructions =
        some (serializeInstructionToBase64 ix ::
          rest.map serializeInstructionToBase64) ∧
      serializeInstructionToBase64 ix ≠ "") ∧
    (∃ r, (RemoveLiquidity.getInstruction true true gov
        (Except.ok (ix :: rest))).fst = Except.ok r ∧
      r.isValid = true ∧ r.serializedInstruction = "" ∧
      r.additionalSerializedInstructions =
        some (serializeInstructionToBase64 ix ::
          rest.map serializeInstructionToBase64) ∧
      serializeInstructionToBase64 ix ≠ "") ∧
    (∃ r, (CreatePool.getInstruction true true gov
        (Except.ok (ix :: rest))).fst = Except.ok r ∧
      r.isValid = true ∧ r.serializedInstruction = "" ∧
      r.additionalSerializedInstructions =
        some (serializeInstructionToBase64 ix ::
          rest.map serializeInstructionToBase64) ∧
      serializeInstructionToBase64 ix ≠ "") ∧
    (∃ r, (CollectFees.getInstruction true true gov
        (Except.ok (ix :: rest))).fst = Except.ok r ∧
      r.isValid = true ∧ r.serializedInstruction = "" ∧
      r.additionalSerializedInstructions =
        some (serializeInstructionToBase64 ix ::
          rest.map serializeInstructionToBase64) ∧
      serializeInstructionToBase64 ix ≠ "") :=
  ⟨⟨_, rfl, rfl, serializeInstructionToBase64_ne_empty _⟩,
    ⟨_, rfl, rfl, serializeInstructionToBase64_ne_empty _⟩,
    ⟨_, rfl, rfl, serializeInstructionToBase64_ne_empty _⟩,
    ⟨_, rfl, rfl, serializeInstructionToBase64_ne_empty _⟩,
    ⟨_, rfl, rfl, serializeInstructionToBase64_ne_empty _⟩,
    ⟨_, rfl, rfl, rfl, rfl, serializeInstructionToBase64_ne_empty _⟩,
    ⟨_, rfl, rfl, rfl, rfl, serializeInstructionToBase64_ne_empty _⟩,
    ⟨_, rfl, rfl, rfl, rfl, serializeInstructionToBase64_ne_empty _⟩,
    ⟨_, rfl, rfl, rfl, rfl, serializeInstructionToBase64_ne_empty _⟩,
    ⟨_, rfl, rfl, rfl, rfl, serializeInstructionToBase64_ne_empty _⟩⟩

end OrcaPlugin
